import Mathlib

/-!
Shallow embedding of the scheduler-boost coordinator in
`src/kernel/sched/boost.c` (msm kernel, OnePlus 7 tree).

The C unit keeps four pieces of global mutable state:
  * `boost_refcount[MAX_NUM_BOOST_TYPE]` — per-kind `int` reference counts,
  * `sched_boost_type` — the currently aggregated boost kind,
  * `sysctl_sched_boost` — the sysctl-visible integer,
  * `boost_policy` — the derived placement policy,
plus the immutable boot-time override `boost_policy_dt` and the capacity
heterogeneity test `min_possible_efficiency != max_possible_efficiency`.

All mutation happens under `boost_mutex`; each call to
`_sched_set_boost` is one atomic transition, so the embedding is a pure
transition function on an explicit state record.  Refcounts are modelled
as mathematical integers (`Int`): the C code uses `int` with every
decrement guarded by a `>= 1` test, and the claims quantify over request
sequences far below any overflow horizon.  Calls into the four downstream
hooks are recorded as an event list in call order;
`trace_sched_set_boost` is an out-of-scope tracepoint and not recorded.
-/

/-- Modelled from the spec: the request/kind codes of `enum
sched_boost_type`, declared in a scheduler header that is not under
`src/`.  The spec fixes seven legal values — four enable codes including
`None` and three disable codes, one per non-`None` kind — and
`verify_boost_params` in `boost.c` accepts exactly the contiguous range
`RESTRAINED_BOOST_DISABLE ..= RESTRAINED_BOOST`. -/
abbrev RESTRAINED_BOOST_DISABLE : Int := -3

abbrev CONSERVATIVE_BOOST_DISABLE : Int := -2

abbrev FULL_THROTTLE_BOOST_DISABLE : Int := -1

abbrev NO_BOOST : Int := 0

abbrev FULL_THROTTLE_BOOST : Int := 1

abbrev CONSERVATIVE_BOOST : Int := 2

abbrev RESTRAINED_BOOST : Int := 3

/-- `enum sched_boost_policy`: the placement-scope outcomes. -/
inductive SchedBoostPolicy where
  | none
  | onBig
  | onAll
deriving DecidableEq, Repr

/-- Immutable configuration surrounding the coordinator: the boot-time
device-tree override `boost_policy_dt` (left at `SCHED_BOOST_NONE` when
unset, set to `onBig`/`onAll` by `sched_boost_parse_dt`), and the
heterogeneity test `min_possible_efficiency != max_possible_efficiency`
on external globals, folded into one boolean. -/
structure BoostConfig where
  boost_policy_dt : SchedBoostPolicy
  heterogeneous : Bool
deriving DecidableEq, Repr

/-- The global mutable state of `boost.c`: the three used entries of
`boost_refcount[]` plus the published triple. -/
structure BoostState where
  ftRefcount : Int
  consRefcount : Int
  restrRefcount : Int
  sched_boost_type : Int
  sysctl_sched_boost : Int
  boost_policy : SchedBoostPolicy
deriving DecidableEq, Repr

/-- One downstream hook invocation, in the order the C code makes it. -/
inductive HookEvent where
  | core_ctl_set_boost (enable : Bool)
  | walt_enable_frequency_aggregation (enable : Bool)
  | update_cgroup_boost_settings
  | restore_cgroup_boost_settings
deriving DecidableEq, Repr

/-- `set_boost_policy` (boost.c lines 45–63), as a function of the
requested aggregate `type`; the C version writes the global
`boost_policy`, here returned. -/
def set_boost_policy (cfg : BoostConfig) (type : Int) : SchedBoostPolicy :=
  if type = NO_BOOST ∨ type = RESTRAINED_BOOST then
    SchedBoostPolicy.none
  else if cfg.boost_policy_dt ≠ SchedBoostPolicy.none then
    cfg.boost_policy_dt
  else if cfg.heterogeneous then
    SchedBoostPolicy.onBig
  else
    SchedBoostPolicy.onAll

/-- `verify_boost_params` (boost.c lines 65–68). -/
def verify_boost_params (type : Int) : Bool :=
  decide (RESTRAINED_BOOST_DISABLE ≤ type ∧ type ≤ RESTRAINED_BOOST)

/-- The aggregation at boost.c lines 149–157: first kind in priority
order `FULL_THROTTLE > CONSERVATIVE > RESTRAINED` with refcount ≥ 1,
else `NO_BOOST`. -/
def aggregateKind (ft cons restr : Int) : Int :=
  if ft ≥ 1 then FULL_THROTTLE_BOOST
  else if cons ≥ 1 then CONSERVATIVE_BOOST
  else if restr ≥ 1 then RESTRAINED_BOOST
  else NO_BOOST

/-- The publication tail of `_sched_set_boost` (lines 149–163): given
the mutated refcounts, recompute the aggregate, store it in both
`sched_boost_type` and `sysctl_sched_boost`, and derive the policy. -/
def publish (cfg : BoostConfig) (ft cons restr : Int) : BoostState :=
  let t := aggregateKind ft cons restr
  { ftRefcount := ft
    consRefcount := cons
    restrRefcount := restr
    sched_boost_type := t
    sysctl_sched_boost := t
    boost_policy := set_boost_policy cfg t }

/-- The `switch (type)` of `_sched_set_boost` (lines 72–147): the new
refcount triple and the hook calls made, in call order.  `Option.none`
is the `default:` arm (`WARN_ON(1); return;`), which returns without
reaching the publication tail.  A C `!refcount` test is `refcount = 0`
and a truthiness test is `refcount ≠ 0`. -/
def boost_switch (s : BoostState) (type : Int) :
    Option ((Int × Int × Int) × List HookEvent) :=
  if type = NO_BOOST then
    -- All boost clear
    let pFT : Int × List HookEvent :=
      if s.ftRefcount > 0 then
        (0, [HookEvent.core_ctl_set_boost false,
             HookEvent.walt_enable_frequency_aggregation false])
      else (s.ftRefcount, [])
    let pC : Int × List HookEvent :=
      if s.consRefcount > 0 then (0, [HookEvent.restore_cgroup_boost_settings])
      else (s.consRefcount, [])
    let pR : Int × List HookEvent :=
      if s.restrRefcount > 0 then
        (0, [HookEvent.walt_enable_frequency_aggregation false])
      else (s.restrRefcount, [])
    Option.some ((pFT.1, pC.1, pR.1), pFT.2 ++ pC.2 ++ pR.2)
  else if type = FULL_THROTTLE_BOOST then
    let ft := s.ftRefcount + 1
    let ev :=
      if ft = 1 then
        [HookEvent.core_ctl_set_boost true,
         HookEvent.restore_cgroup_boost_settings] ++
        (if s.restrRefcount = 0 then
           [HookEvent.walt_enable_frequency_aggregation true]
         else [])
      else []
    Option.some ((ft, s.consRefcount, s.restrRefcount), ev)
  else if type = CONSERVATIVE_BOOST then
    let cons := s.consRefcount + 1
    let ev :=
      if cons = 1 ∧ s.ftRefcount = 0 then
        [HookEvent.update_cgroup_boost_settings]
      else []
    Option.some ((s.ftRefcount, cons, s.restrRefcount), ev)
  else if type = RESTRAINED_BOOST then
    let restr := s.restrRefcount + 1
    let ev :=
      if restr = 1 ∧ s.ftRefcount = 0 then
        [HookEvent.walt_enable_frequency_aggregation true]
      else []
    Option.some ((s.ftRefcount, s.consRefcount, restr), ev)
  else if type = FULL_THROTTLE_BOOST_DISABLE then
    if s.ftRefcount ≥ 1 then
      let ft := s.ftRefcount - 1
      let ev :=
        if ft = 0 then
          [HookEvent.core_ctl_set_boost false] ++
          (if s.consRefcount ≥ 1 then
             [HookEvent.update_cgroup_boost_settings]
           else []) ++
          (if s.restrRefcount = 0 then
             [HookEvent.walt_enable_frequency_aggregation false]
           else [])
        else []
      Option.some ((ft, s.consRefcount, s.restrRefcount), ev)
    else Option.some ((s.ftRefcount, s.consRefcount, s.restrRefcount), [])
  else if type = CONSERVATIVE_BOOST_DISABLE then
    if s.consRefcount ≥ 1 then
      let cons := s.consRefcount - 1
      let ev :=
        if cons = 0 then [HookEvent.restore_cgroup_boost_settings] else []
      Option.some ((s.ftRefcount, cons, s.restrRefcount), ev)
    else Option.some ((s.ftRefcount, s.consRefcount, s.restrRefcount), [])
  else if type = RESTRAINED_BOOST_DISABLE then
    if s.restrRefcount ≥ 1 then
      let restr := s.restrRefcount - 1
      let ev :=
        if restr = 0 ∧ s.ftRefcount = 0 then
          [HookEvent.walt_enable_frequency_aggregation false]
        else []
      Option.some ((s.ftRefcount, s.consRefcount, restr), ev)
    else Option.some ((s.ftRefcount, s.consRefcount, s.restrRefcount), [])
  else
    Option.none

/-- `_sched_set_boost` (boost.c lines 70–164): run the switch, then —
unless the default arm returned early — publish the re-aggregated
state.  Also returns the hook calls made. -/
def _sched_set_boost (cfg : BoostConfig) (s : BoostState) (type : Int) :
    BoostState × List HookEvent :=
  match boost_switch s type with
  | Option.none => (s, [])
  | Option.some ((ft, cons, restr), ev) => (publish cfg ft cons restr, ev)

abbrev EINVAL : Int := 22

/-- Result of one entry-point call: the new global state, the hook
calls made, and the C return value. -/
structure ApplyResult where
  state : BoostState
  events : List HookEvent
  ret : Int
deriving DecidableEq, Repr

/-- `sched_set_boost` (boost.c lines 183–194): validate under the
mutex, then apply; `-EINVAL` and no mutation on an illegal code. -/
def sched_set_boost (cfg : BoostConfig) (s : BoostState) (type : Int) :
    ApplyResult :=
  if verify_boost_params type then
    let r := _sched_set_boost cfg s type
    { state := r.1, events := r.2, ret := 0 }
  else
    { state := s, events := [], ret := -EINVAL }

/-- Modelled from the spec: the external generic bounded-integer
mechanism (`proc_dointvec_minmax`, not part of this repository) that
`sched_boost_handler` delegates to.  On a successful in-bounds write it
stores the raw integer in the table's data slot, which is
`sysctl_sched_boost`; on a read it reports the stored value.  Bounds
enforcement is external and not modelled: writes here are the
successfully parsed, in-bounds ones. -/
def proc_dointvec_store (s : BoostState) (v : Int) : BoostState :=
  { s with sysctl_sched_boost := v }

/-- The write direction of `sched_boost_handler` (boost.c lines
196–218): under the mutex, let the external mechanism store the raw
integer, then validate it and apply. -/
def sched_boost_handler_write (cfg : BoostConfig) (s : BoostState)
    (v : Int) : ApplyResult :=
  let s1 := proc_dointvec_store s v
  if verify_boost_params v then
    let r := _sched_set_boost cfg s1 v
    { state := r.1, events := r.2, ret := 0 }
  else
    { state := s1, events := [], ret := -EINVAL }

/-- The read direction of `sched_boost_handler`: the external mechanism
reports the current `sysctl_sched_boost`. -/
def sched_boost_handler_read (s : BoostState) : Int :=
  s.sysctl_sched_boost

/-- The globals at init: all counters zero, kind `NO_BOOST`, policy
`SCHED_BOOST_NONE` (C zero-initialized statics). -/
def initState : BoostState :=
  { ftRefcount := 0
    consRefcount := 0
    restrRefcount := 0
    sched_boost_type := NO_BOOST
    sysctl_sched_boost := NO_BOOST
    boost_policy := SchedBoostPolicy.none }

/-- Apply a sequence of `sched_set_boost` request codes in order. -/
def applySeq (cfg : BoostConfig) (s : BoostState) (reqs : List Int) :
    BoostState :=
  reqs.foldl (fun st r => (sched_set_boost cfg st r).state) s

/-- States reachable from the initial globals via `sched_set_boost`
calls. -/
def Reachable (cfg : BoostConfig) (s : BoostState) : Prop :=
  ∃ reqs : List Int, applySeq cfg initState reqs = s

/-- No refcount is negative. -/
def NonNeg (s : BoostState) : Prop :=
  0 ≤ s.ftRefcount ∧ 0 ≤ s.consRefcount ∧ 0 ≤ s.restrRefcount

/-- The published triple is the projection of the refcount table. -/
def Consistent (cfg : BoostConfig) (s : BoostState) : Prop :=
  s = publish cfg s.ftRefcount s.consRefcount s.restrRefcount

/-- A fixed configuration for concrete evaluations: no device-tree
override, homogeneous capacities. -/
def cfg0 : BoostConfig :=
  { boost_policy_dt := SchedBoostPolicy.none, heterogeneous := false }

/-- The seven legal request codes. -/
def legal_boost_requests : List Int :=
  [RESTRAINED_BOOST_DISABLE, CONSERVATIVE_BOOST_DISABLE,
   FULL_THROTTLE_BOOST_DISABLE, NO_BOOST, FULL_THROTTLE_BOOST,
   CONSERVATIVE_BOOST, RESTRAINED_BOOST]

/-! ### Normal forms for one `sched_set_boost` call -/

@[simp]
lemma publish_ftRefcount (cfg : BoostConfig) (a b c : Int) :
    (publish cfg a b c).ftRefcount = a := rfl

@[simp]
lemma publish_consRefcount (cfg : BoostConfig) (a b c : Int) :
    (publish cfg a b c).consRefcount = b := rfl

@[simp]
lemma publish_restrRefcount (cfg : BoostConfig) (a b c : Int) :
    (publish cfg a b c).restrRefcount = c := rfl

@[simp]
lemma publish_sched_boost_type (cfg : BoostConfig) (a b c : Int) :
    (publish cfg a b c).sched_boost_type = aggregateKind a b c := rfl

@[simp]
lemma publish_sysctl (cfg : BoostConfig) (a b c : Int) :
    (publish cfg a b c).sysctl_sched_boost = aggregateKind a b c := rfl

@[simp]
lemma publish_policy (cfg : BoostConfig) (a b c : Int) :
    (publish cfg a b c).boost_policy =
      set_boost_policy cfg (aggregateKind a b c) := rfl

lemma verify_iff (t : Int) :
    verify_boost_params t = true ↔ -3 ≤ t ∧ t ≤ 3 := by
  simp [verify_boost_params, RESTRAINED_BOOST_DISABLE, RESTRAINED_BOOST]

lemma sched_set_boost_invalid (cfg : BoostConfig) (s : BoostState) (t : Int)
    (h : ¬ (-3 ≤ t ∧ t ≤ 3)) :
    sched_set_boost cfg s t = { state := s, events := [], ret := -EINVAL } := by
  unfold sched_set_boost
  rw [if_neg]
  rw [verify_iff]
  exact h

lemma apply_NO_BOOST (cfg : BoostConfig) (s : BoostState) :
    sched_set_boost cfg s NO_BOOST =
      { state := publish cfg (if s.ftRefcount > 0 then 0 else s.ftRefcount)
          (if s.consRefcount > 0 then 0 else s.consRefcount)
          (if s.restrRefcount > 0 then 0 else s.restrRefcount)
        events :=
          (if s.ftRefcount > 0 then
            [HookEvent.core_ctl_set_boost false,
             HookEvent.walt_enable_frequency_aggregation false] else []) ++
          (if s.consRefcount > 0 then
            [HookEvent.restore_cgroup_boost_settings] else []) ++
          (if s.restrRefcount > 0 then
            [HookEvent.walt_enable_frequency_aggregation false] else [])
        ret := 0 } := by
  simp only [sched_set_boost, verify_boost_params, _sched_set_boost,
    boost_switch, NO_BOOST, RESTRAINED_BOOST_DISABLE, RESTRAINED_BOOST]
  norm_num
  split_ifs <;> first | rfl | exact ⟨rfl, rfl⟩

lemma apply_FT (cfg : BoostConfig) (s : BoostState) :
    sched_set_boost cfg s FULL_THROTTLE_BOOST =
      { state := publish cfg (s.ftRefcount + 1) s.consRefcount s.restrRefcount
        events :=
          if s.ftRefcount + 1 = 1 then
            [HookEvent.core_ctl_set_boost true,
             HookEvent.restore_cgroup_boost_settings] ++
            (if s.restrRefcount = 0 then
              [HookEvent.walt_enable_frequency_aggregation true] else [])
          else []
        ret := 0 } := by
  simp only [sched_set_boost, verify_boost_params, _sched_set_boost,
    boost_switch, NO_BOOST, FULL_THROTTLE_BOOST, RESTRAINED_BOOST_DISABLE,
    RESTRAINED_BOOST]
  norm_num

lemma apply_CONS (cfg : BoostConfig) (s : BoostState) :
    sched_set_boost cfg s CONSERVATIVE_BOOST =
      { state := publish cfg s.ftRefcount (s.consRefcount + 1) s.restrRefcount
        events :=
          if s.consRefcount + 1 = 1 ∧ s.ftRefcount = 0 then
            [HookEvent.update_cgroup_boost_settings]
          else []
        ret := 0 } := by
  simp only [sched_set_boost, verify_boost_params, _sched_set_boost,
    boost_switch, NO_BOOST, FULL_THROTTLE_BOOST, CONSERVATIVE_BOOST,
    RESTRAINED_BOOST_DISABLE, RESTRAINED_BOOST]
  norm_num

lemma apply_RESTR (cfg : BoostConfig) (s : BoostState) :
    sched_set_boost cfg s RESTRAINED_BOOST =
      { state := publish cfg s.ftRefcount s.consRefcount (s.restrRefcount + 1)
        events :=
          if s.restrRefcount + 1 = 1 ∧ s.ftRefcount = 0 then
            [HookEvent.walt_enable_frequency_aggregation true]
          else []
        ret := 0 } := by
  simp only [sched_set_boost, verify_boost_params, _sched_set_boost,
    boost_switch, NO_BOOST, FULL_THROTTLE_BOOST, CONSERVATIVE_BOOST,
    RESTRAINED_BOOST_DISABLE, RESTRAINED_BOOST]
  norm_num

lemma apply_FT_DIS (cfg : BoostConfig) (s : BoostState) :
    sched_set_boost cfg s FULL_THROTTLE_BOOST_DISABLE =
      if s.ftRefcount ≥ 1 then
        { state := publish cfg (s.ftRefcount - 1) s.consRefcount s.restrRefcount
          events :=
            if s.ftRefcount - 1 = 0 then
              [HookEvent.core_ctl_set_boost false] ++
              (if s.consRefcount ≥ 1 then
                [HookEvent.update_cgroup_boost_settings] else []) ++
              (if s.restrRefcount = 0 then
                [HookEvent.walt_enable_frequency_aggregation false] else [])
            else []
          ret := 0 }
      else
        { state := publish cfg s.ftRefcount s.consRefcount s.restrRefcount
          events := []
          ret := 0 } := by
  simp only [sched_set_boost, verify_boost_params, _sched_set_boost,
    boost_switch, NO_BOOST, FULL_THROTTLE_BOOST, CONSERVATIVE_BOOST,
    RESTRAINED_BOOST, FULL_THROTTLE_BOOST_DISABLE, RESTRAINED_BOOST_DISABLE]
  norm_num
  split_ifs <;> rfl

lemma apply_CONS_DIS (cfg : BoostConfig) (s : BoostState) :
    sched_set_boost cfg s CONSERVATIVE_BOOST_DISABLE =
      if s.consRefcount ≥ 1 then
        { state := publish cfg s.ftRefcount (s.consRefcount - 1) s.restrRefcount
          events :=
            if s.consRefcount - 1 = 0 then
              [HookEvent.restore_cgroup_boost_settings]
            else []
          ret := 0 }
      else
        { state := publish cfg s.ftRefcount s.consRefcount s.restrRefcount
          events := []
          ret := 0 } := by
  simp only [sched_set_boost, verify_boost_params, _sched_set_boost,
    boost_switch, NO_BOOST, FULL_THROTTLE_BOOST, CONSERVATIVE_BOOST,
    RESTRAINED_BOOST, FULL_THROTTLE_BOOST_DISABLE, CONSERVATIVE_BOOST_DISABLE,
    RESTRAINED_BOOST_DISABLE]
  norm_num
  split_ifs <;> rfl

lemma apply_RESTR_DIS (cfg : BoostConfig) (s : BoostState) :
    sched_set_boost cfg s RESTRAINED_BOOST_DISABLE =
      if s.restrRefcount ≥ 1 then
        { state := publish cfg s.ftRefcount s.consRefcount (s.restrRefcount - 1)
          events :=
            if s.restrRefcount - 1 = 0 ∧ s.ftRefcount = 0 then
              [HookEvent.walt_enable_frequency_aggregation false]
            else []
          ret := 0 }
      else
        { state := publish cfg s.ftRefcount s.consRefcount s.restrRefcount
          events := []
          ret := 0 } := by
  simp only [sched_set_boost, verify_boost_params, _sched_set_boost,
    boost_switch, NO_BOOST, FULL_THROTTLE_BOOST, CONSERVATIVE_BOOST,
    RESTRAINED_BOOST, FULL_THROTTLE_BOOST_DISABLE, CONSERVATIVE_BOOST_DISABLE,
    RESTRAINED_BOOST_DISABLE]
  norm_num
  split_ifs <;> rfl

/-! ### Invariants preserved by the coordinator -/

lemma consistent_publish (cfg : BoostConfig) (a b c : Int) :
    Consistent cfg (publish cfg a b c) := by
  simp [Consistent]

lemma nonNeg_initState : NonNeg initState := by
  refine ⟨?_, ?_, ?_⟩ <;> norm_num [initState]

lemma consistent_initState (cfg : BoostConfig) : Consistent cfg initState := by
  simp [Consistent, initState, publish, aggregateKind, set_boost_policy]

lemma sched_set_boost_consistent (cfg : BoostConfig) (s : BoostState) (t : Int)
    (h : verify_boost_params t = true) :
    Consistent cfg (sched_set_boost cfg s t).state := by
  rw [verify_iff] at h
  obtain ⟨h1, h2⟩ := h
  interval_cases t
  · rw [apply_RESTR_DIS]
    split_ifs <;> exact consistent_publish cfg _ _ _
  · rw [apply_CONS_DIS]
    split_ifs <;> exact consistent_publish cfg _ _ _
  · rw [apply_FT_DIS]
    split_ifs <;> exact consistent_publish cfg _ _ _
  · rw [apply_NO_BOOST]
    exact consistent_publish cfg _ _ _
  · rw [apply_FT]
    exact consistent_publish cfg _ _ _
  · rw [apply_CONS]
    exact consistent_publish cfg _ _ _
  · rw [apply_RESTR]
    exact consistent_publish cfg _ _ _

lemma sched_set_boost_nonneg (cfg : BoostConfig) (s : BoostState) (t : Int)
    (h : NonNeg s) : NonNeg (sched_set_boost cfg s t).state := by
  obtain ⟨hf, hc, hr⟩ := h
  by_cases hv : verify_boost_params t = true
  · rw [verify_iff] at hv
    obtain ⟨h1, h2⟩ := hv
    interval_cases t
    · rw [apply_RESTR_DIS]
      split_ifs <;> simp [NonNeg] <;> omega
    · rw [apply_CONS_DIS]
      split_ifs <;> simp [NonNeg] <;> omega
    · rw [apply_FT_DIS]
      split_ifs <;> simp [NonNeg] <;> omega
    · rw [apply_NO_BOOST]
      simp only [NonNeg, publish_ftRefcount, publish_consRefcount,
        publish_restrRefcount]
      split_ifs <;> omega
    · rw [apply_FT]
      simp [NonNeg]
      omega
    · rw [apply_CONS]
      simp [NonNeg]
      omega
    · rw [apply_RESTR]
      simp [NonNeg]
      omega
  · have hb : ¬ (-3 ≤ t ∧ t ≤ 3) := fun hb => hv ((verify_iff t).mpr hb)
    rw [sched_set_boost_invalid cfg s t hb]
    exact ⟨hf, hc, hr⟩

lemma step_inv (cfg : BoostConfig) (s : BoostState) (t : Int)
    (h : NonNeg s ∧ Consistent cfg s) :
    NonNeg (sched_set_boost cfg s t).state ∧
      Consistent cfg (sched_set_boost cfg s t).state := by
  by_cases hv : verify_boost_params t = true
  · exact ⟨sched_set_boost_nonneg cfg s t h.1,
      sched_set_boost_consistent cfg s t hv⟩
  · have hb : ¬ (-3 ≤ t ∧ t ≤ 3) := fun hb => hv ((verify_iff t).mpr hb)
    rw [sched_set_boost_invalid cfg s t hb]
    exact h

lemma applySeq_nil (cfg : BoostConfig) (s : BoostState) :
    applySeq cfg s [] = s := rfl

lemma applySeq_cons (cfg : BoostConfig) (s : BoostState) (r : Int)
    (rs : List Int) :
    applySeq cfg s (r :: rs) =
      applySeq cfg (sched_set_boost cfg s r).state rs := rfl

lemma applySeq_append (cfg : BoostConfig) (s : BoostState)
    (l1 l2 : List Int) :
    applySeq cfg s (l1 ++ l2) = applySeq cfg (applySeq cfg s l1) l2 := by
  simp [applySeq, List.foldl_append]

lemma applySeq_inv (cfg : BoostConfig) (reqs : List Int) (s : BoostState)
    (h : NonNeg s ∧ Consistent cfg s) :
    NonNeg (applySeq cfg s reqs) ∧ Consistent cfg (applySeq cfg s reqs) := by
  induction reqs generalizing s with
  | nil => simpa [applySeq_nil] using h
  | cons r rs ih =>
    rw [applySeq_cons]
    exact ih _ (step_inv cfg s r h)

lemma reachable_inv (cfg : BoostConfig) (s : BoostState)
    (h : Reachable cfg s) : NonNeg s ∧ Consistent cfg s := by
  obtain ⟨reqs, rfl⟩ := h
  exact applySeq_inv cfg reqs initState ⟨nonNeg_initState, consistent_initState cfg⟩

/-! ### Round-trip: N enables then N matching disables -/

lemma replicate_FT (cfg : BoostConfig) (N : ℕ) (s : BoostState) :
    applySeq cfg s (List.replicate (N + 1) FULL_THROTTLE_BOOST) =
      publish cfg (s.ftRefcount + (N + 1 : ℤ)) s.consRefcount s.restrRefcount := by
  induction N generalizing s with
  | zero =>
    rw [List.replicate_succ, List.replicate_zero, applySeq_cons, applySeq_nil,
      apply_FT]
    push_cast
    norm_num
  | succ n ih =>
    rw [List.replicate_succ, applySeq_cons, apply_FT, ih]
    simp only [publish_ftRefcount, publish_consRefcount, publish_restrRefcount]
    congr 1
    push_cast
    ring

lemma replicate_CONS (cfg : BoostConfig) (N : ℕ) (s : BoostState) :
    applySeq cfg s (List.replicate (N + 1) CONSERVATIVE_BOOST) =
      publish cfg s.ftRefcount (s.consRefcount + (N + 1 : ℤ)) s.restrRefcount := by
  induction N generalizing s with
  | zero =>
    rw [List.replicate_succ, List.replicate_zero, applySeq_cons, applySeq_nil,
      apply_CONS]
    push_cast
    norm_num
  | succ n ih =>
    rw [List.replicate_succ, applySeq_cons, apply_CONS, ih]
    simp only [publish_ftRefcount, publish_consRefcount, publish_restrRefcount]
    congr 1
    push_cast
    ring

lemma replicate_RESTR (cfg : BoostConfig) (N : ℕ) (s : BoostState) :
    applySeq cfg s (List.replicate (N + 1) RESTRAINED_BOOST) =
      publish cfg s.ftRefcount s.consRefcount (s.restrRefcount + (N + 1 : ℤ)) := by
  induction N generalizing s with
  | zero =>
    rw [List.replicate_succ, List.replicate_zero, applySeq_cons, applySeq_nil,
      apply_RESTR]
    push_cast
    norm_num
  | succ n ih =>
    rw [List.replicate_succ, applySeq_cons, apply_RESTR, ih]
    simp only [publish_ftRefcount, publish_consRefcount, publish_restrRefcount]
    congr 1
    push_cast
    ring

lemma replicate_FT_DIS (cfg : BoostConfig) (N : ℕ) (a b c : Int) (ha : 0 ≤ a) :
    applySeq cfg (publish cfg (a + (N + 1 : ℤ)) b c)
      (List.replicate (N + 1) FULL_THROTTLE_BOOST_DISABLE) =
      publish cfg a b c := by
  induction N generalizing a with
  | zero =>
    rw [List.replicate_succ, List.replicate_zero, applySeq_cons, applySeq_nil,
      apply_FT_DIS]
    rw [if_pos (by simp; omega)]
    simp only [publish_ftRefcount, publish_consRefcount, publish_restrRefcount]
    congr 1
    push_cast
    ring
  | succ n ih =>
    rw [List.replicate_succ, applySeq_cons, apply_FT_DIS]
    rw [if_pos (by simp; omega)]
    simp only [publish_ftRefcount, publish_consRefcount, publish_restrRefcount]
    have h1 : a + (↑(n + 1) + 1 : ℤ) - 1 = a + (↑n + 1 : ℤ) := by push_cast; ring
    rw [h1, ih a ha]

lemma replicate_CONS_DIS (cfg : BoostConfig) (N : ℕ) (a b c : Int)
    (hb : 0 ≤ b) :
    applySeq cfg (publish cfg a (b + (N + 1 : ℤ)) c)
      (List.replicate (N + 1) CONSERVATIVE_BOOST_DISABLE) =
      publish cfg a b c := by
  induction N generalizing b with
  | zero =>
    rw [List.replicate_succ, List.replicate_zero, applySeq_cons, applySeq_nil,
      apply_CONS_DIS]
    rw [if_pos (by simp; omega)]
    simp only [publish_ftRefcount, publish_consRefcount, publish_restrRefcount]
    congr 1
    push_cast
    ring
  | succ n ih =>
    rw [List.replicate_succ, applySeq_cons, apply_CONS_DIS]
    rw [if_pos (by simp; omega)]
    simp only [publish_ftRefcount, publish_consRefcount, publish_restrRefcount]
    have h1 : b + (↑(n + 1) + 1 : ℤ) - 1 = b + (↑n + 1 : ℤ) := by push_cast; ring
    rw [h1, ih b hb]

lemma replicate_RESTR_DIS (cfg : BoostConfig) (N : ℕ) (a b c : Int)
    (hc : 0 ≤ c) :
    applySeq cfg (publish cfg a b (c + (N + 1 : ℤ)))
      (List.replicate (N + 1) RESTRAINED_BOOST_DISABLE) =
      publish cfg a b c := by
  induction N generalizing c with
  | zero =>
    rw [List.replicate_succ, List.replicate_zero, applySeq_cons, applySeq_nil,
      apply_RESTR_DIS]
    rw [if_pos (by simp; omega)]
    simp only [publish_ftRefcount, publish_consRefcount, publish_restrRefcount]
    congr 1
    push_cast
    ring
  | succ n ih =>
    rw [List.replicate_succ, applySeq_cons, apply_RESTR_DIS]
    rw [if_pos (by simp; omega)]
    simp only [publish_ftRefcount, publish_consRefcount, publish_restrRefcount]
    have h1 : c + (↑(n + 1) + 1 : ℤ) - 1 = c + (↑n + 1 : ℤ) := by push_cast; ring
    rw [h1, ih c hc]

/-! ### Projections of the consistency invariant -/

lemma consistent_kind (cfg : BoostConfig) (s : BoostState)
    (h : Consistent cfg s) :
    s.sched_boost_type =
      aggregateKind s.ftRefcount s.consRefcount s.restrRefcount := by
  have h2 := congrArg BoostState.sched_boost_type h
  rwa [publish_sched_boost_type] at h2

lemma consistent_sysctl (cfg : BoostConfig) (s : BoostState)
    (h : Consistent cfg s) :
    s.sysctl_sched_boost =
      aggregateKind s.ftRefcount s.consRefcount s.restrRefcount := by
  have h2 := congrArg BoostState.sysctl_sched_boost h
  rwa [publish_sysctl] at h2

lemma consistent_policy (cfg : BoostConfig) (s : BoostState)
    (h : Consistent cfg s) :
    s.boost_policy =
      set_boost_policy cfg
        (aggregateKind s.ftRefcount s.consRefcount s.restrRefcount) := by
  have h2 := congrArg BoostState.boost_policy h
  rwa [publish_policy] at h2

lemma set_boost_policy_eq_none_iff (cfg : BoostConfig) (k : Int) :
    set_boost_policy cfg k = SchedBoostPolicy.none ↔
      (k = NO_BOOST ∨ k = RESTRAINED_BOOST) := by
  unfold set_boost_policy
  split_ifs with h1 h2 h3 <;> simp_all

/-! ### Claims -/

/-- C1: after any valid `sched_set_boost` request, the published
aggregate kind is `FULL_THROTTLE_BOOST` if its refcount is ≥ 1, else
`CONSERVATIVE_BOOST` if its refcount is ≥ 1, else `RESTRAINED_BOOST` if
its refcount is ≥ 1, else `NO_BOOST`; it is a function of the final
refcount vector alone, so any two valid calls — regardless of the
histories behind them — that end in the same refcount vector publish the
same kind. -/
theorem C1_aggregate_priority (cfg : BoostConfig) (s : BoostState) (t : Int)
    (h : verify_boost_params t = true) :
    ((sched_set_boost cfg s t).state.sched_boost_type =
       aggregateKind (sched_set_boost cfg s t).state.ftRefcount
         (sched_set_boost cfg s t).state.consRefcount
         (sched_set_boost cfg s t).state.restrRefcount) ∧
    (∀ (cfg2 : BoostConfig) (s2 : BoostState) (t2 : Int),
      verify_boost_params t2 = true →
      (sched_set_boost cfg2 s2 t2).state.ftRefcount =
        (sched_set_boost cfg s t).state.ftRefcount →
      (sched_set_boost cfg2 s2 t2).state.consRefcount =
        (sched_set_boost cfg s t).state.consRefcount →
      (sched_set_boost cfg2 s2 t2).state.restrRefcount =
        (sched_set_boost cfg s t).state.restrRefcount →
      (sched_set_boost cfg2 s2 t2).state.sched_boost_type =
        (sched_set_boost cfg s t).state.sched_boost_type) := by
  have h1 := consistent_kind cfg _ (sched_set_boost_consistent cfg s t h)
  refine ⟨h1, ?_⟩
  intro cfg2 s2 t2 h2 hft hcons hrestr
  have h3 := consistent_kind cfg2 _ (sched_set_boost_consistent cfg2 s2 t2 h2)
  rw [h1, h3, hft, hcons, hrestr]

/-- Witness for C1 at a concrete valid request. -/
theorem C1_aggregate_priority_witness :
    (sched_set_boost cfg0 initState FULL_THROTTLE_BOOST).state.sched_boost_type =
      aggregateKind
        (sched_set_boost cfg0 initState FULL_THROTTLE_BOOST).state.ftRefcount
        (sched_set_boost cfg0 initState FULL_THROTTLE_BOOST).state.consRefcount
        (sched_set_boost cfg0 initState FULL_THROTTLE_BOOST).state.restrRefcount :=
  (C1_aggregate_priority cfg0 initState FULL_THROTTLE_BOOST (by decide)).1

/-- C2: the policy rule of `set_boost_policy`: kind `NO_BOOST` or
`RESTRAINED_BOOST` gives policy `none`; otherwise a set boot-time
override gives the override; otherwise a heterogeneous capacity set
gives `onBig`; otherwise `onAll`.  In particular, override `onBig` with
kind `FULL_THROTTLE_BOOST` gives `onBig` on a homogeneous set. -/
theorem C2_policy_rule (dt : SchedBoostPolicy) (het : Bool) (t : Int) :
    ((t = NO_BOOST ∨ t = RESTRAINED_BOOST) →
      set_boost_policy { boost_policy_dt := dt, heterogeneous := het } t =
        SchedBoostPolicy.none) ∧
    (¬ (t = NO_BOOST ∨ t = RESTRAINED_BOOST) → dt ≠ SchedBoostPolicy.none →
      set_boost_policy { boost_policy_dt := dt, heterogeneous := het } t = dt) ∧
    (¬ (t = NO_BOOST ∨ t = RESTRAINED_BOOST) → dt = SchedBoostPolicy.none →
      het = true →
      set_boost_policy { boost_policy_dt := dt, heterogeneous := het } t =
        SchedBoostPolicy.onBig) ∧
    (¬ (t = NO_BOOST ∨ t = RESTRAINED_BOOST) → dt = SchedBoostPolicy.none →
      het = false →
      set_boost_policy { boost_policy_dt := dt, heterogeneous := het } t =
        SchedBoostPolicy.onAll) ∧
    set_boost_policy
      { boost_policy_dt := SchedBoostPolicy.onBig, heterogeneous := false }
      FULL_THROTTLE_BOOST = SchedBoostPolicy.onBig := by
  refine ⟨?_, ?_, ?_, ?_, by decide⟩ <;>
    intros <;> simp_all [set_boost_policy]

/-- Witness for C2: override `onBig`, homogeneous set, kind
`FULL_THROTTLE_BOOST`. -/
theorem C2_policy_rule_witness :
    set_boost_policy
      { boost_policy_dt := SchedBoostPolicy.onBig, heterogeneous := false }
      FULL_THROTTLE_BOOST = SchedBoostPolicy.onBig :=
  (C2_policy_rule SchedBoostPolicy.onBig false FULL_THROTTLE_BOOST).2.1
    (by decide) (by decide)

/-- C5: from any state with non-negative refcounts (an invariant of all
reachable states), `apply(NO_BOOST)` leaves aggregate kind `NO_BOOST`,
policy `none`, and all three refcounts zero. -/
theorem C5_clear_all_resets (cfg : BoostConfig) (s : BoostState)
    (h : NonNeg s) :
    (sched_set_boost cfg s NO_BOOST).state.sched_boost_type = NO_BOOST ∧
    (sched_set_boost cfg s NO_BOOST).state.boost_policy =
      SchedBoostPolicy.none ∧
    (sched_set_boost cfg s NO_BOOST).state.ftRefcount = 0 ∧
    (sched_set_boost cfg s NO_BOOST).state.consRefcount = 0 ∧
    (sched_set_boost cfg s NO_BOOST).state.restrRefcount = 0 := by
  obtain ⟨hf, hc, hr⟩ := h
  rw [apply_NO_BOOST]
  have eft : (if s.ftRefcount > 0 then (0 : ℤ) else s.ftRefcount) = 0 := by
    split_ifs <;> omega
  have econs : (if s.consRefcount > 0 then (0 : ℤ) else s.consRefcount) = 0 := by
    split_ifs <;> omega
  have erestr : (if s.restrRefcount > 0 then (0 : ℤ) else s.restrRefcount) = 0 := by
    split_ifs <;> omega
  rw [eft, econs, erestr]
  refine ⟨?_, ?_, rfl, rfl, rfl⟩
  · simp [aggregateKind]
  · simp [aggregateKind, set_boost_policy]

/-- Witness for C5 from the initial state. -/
theorem C5_clear_all_resets_witness :
    NonNeg initState ∧
    ((sched_set_boost cfg0 initState NO_BOOST).state.sched_boost_type =
        NO_BOOST ∧
      (sched_set_boost cfg0 initState NO_BOOST).state.boost_policy =
        SchedBoostPolicy.none ∧
      (sched_set_boost cfg0 initState NO_BOOST).state.ftRefcount = 0 ∧
      (sched_set_boost cfg0 initState NO_BOOST).state.consRefcount = 0 ∧
      (sched_set_boost cfg0 initState NO_BOOST).state.restrRefcount = 0) :=
  ⟨nonNeg_initState, C5_clear_all_resets cfg0 initState nonNeg_initState⟩

/-- C8: a request code outside the seven legal values makes
`sched_set_boost` return `-EINVAL` with no hook call and the state
byte-for-byte unchanged; every code inside the seven returns 0. -/
theorem C8_invalid_request (cfg : BoostConfig) (s : BoostState) (t : Int) :
    (t ∉ legal_boost_requests →
      sched_set_boost cfg s t =
        { state := s, events := [], ret := -EINVAL }) ∧
    (t ∈ legal_boost_requests → (sched_set_boost cfg s t).ret = 0) := by
  constructor
  · intro h
    apply sched_set_boost_invalid
    simp only [legal_boost_requests, List.mem_cons, List.not_mem_nil,
      RESTRAINED_BOOST_DISABLE, CONSERVATIVE_BOOST_DISABLE,
      FULL_THROTTLE_BOOST_DISABLE, NO_BOOST, FULL_THROTTLE_BOOST,
      CONSERVATIVE_BOOST, RESTRAINED_BOOST] at h
    omega
  · intro h
    have hv : verify_boost_params t = true := by
      rw [verify_iff]
      simp only [legal_boost_requests, List.mem_cons, List.not_mem_nil,
        or_false] at h
      rcases h with rfl | rfl | rfl | rfl | rfl | rfl | rfl <;> norm_num
    unfold sched_set_boost
    rw [if_pos hv]

/-- Witness for C8: the illegal code 5 and the legal code
`RESTRAINED_BOOST`. -/
theorem C8_invalid_request_witness :
    sched_set_boost cfg0 initState 5 =
      { state := initState, events := [], ret := -EINVAL } ∧
    (sched_set_boost cfg0 initState RESTRAINED_BOOST).ret = 0 :=
  ⟨(C8_invalid_request cfg0 initState 5).1 (by decide),
   (C8_invalid_request cfg0 initState RESTRAINED_BOOST).2 (by decide)⟩

/-- C10: after any valid request the published policy is
`set_boost_policy` of the freshly published kind, and the policy is
`none` exactly when that kind is `NO_BOOST` or `RESTRAINED_BOOST` — the
published pair is never a stale mixture. -/
theorem C10_policy_kind_consistency (cfg : BoostConfig) (s : BoostState)
    (t : Int) (h : verify_boost_params t = true) :
    (sched_set_boost cfg s t).state.boost_policy =
      set_boost_policy cfg (sched_set_boost cfg s t).state.sched_boost_type ∧
    ((sched_set_boost cfg s t).state.boost_policy = SchedBoostPolicy.none ↔
      ((sched_set_boost cfg s t).state.sched_boost_type = NO_BOOST ∨
        (sched_set_boost cfg s t).state.sched_boost_type =
          RESTRAINED_BOOST)) := by
  have hcons := sched_set_boost_consistent cfg s t h
  have h1 := consistent_policy cfg _ hcons
  have h2 := consistent_kind cfg _ hcons
  refine ⟨by rw [h1, h2], ?_⟩
  rw [h1, h2]
  exact set_boost_policy_eq_none_iff cfg _

/-- Witness for C10 at a concrete valid request. -/
theorem C10_policy_kind_consistency_witness :
    (sched_set_boost cfg0 initState FULL_THROTTLE_BOOST).state.boost_policy =
      set_boost_policy cfg0
        (sched_set_boost cfg0 initState FULL_THROTTLE_BOOST).state.sched_boost_type ∧
    ((sched_set_boost cfg0 initState FULL_THROTTLE_BOOST).state.boost_policy =
        SchedBoostPolicy.none ↔
      ((sched_set_boost cfg0 initState FULL_THROTTLE_BOOST).state.sched_boost_type =
          NO_BOOST ∨
        (sched_set_boost cfg0 initState FULL_THROTTLE_BOOST).state.sched_boost_type =
          RESTRAINED_BOOST)) :=
  C10_policy_kind_consistency cfg0 initState FULL_THROTTLE_BOOST (by decide)

/-- C3 (amended): for every prior state, `apply(NO_BOOST)` fires, in
order: if the `FULL_THROTTLE` refcount is > 0, `core_ctl_set_boost(false)`
followed unconditionally by `walt_enable_frequency_aggregation(false)`
(no cgroup-settings update, and regardless of the `RESTRAINED`
refcount); then, if the `CONSERVATIVE` refcount is > 0,
`restore_cgroup_boost_settings()`; then, if the `RESTRAINED` refcount is
> 0, `walt_enable_frequency_aggregation(false)` (regardless of the
`FULL_THROTTLE` refcount). -/
theorem C3_clear_all_side_effects (cfg : BoostConfig) (s : BoostState) :
    (sched_set_boost cfg s NO_BOOST).events =
      (if s.ftRefcount > 0 then
        [HookEvent.core_ctl_set_boost false,
         HookEvent.walt_enable_frequency_aggregation false]
       else []) ++
      (if s.consRefcount > 0 then
        [HookEvent.restore_cgroup_boost_settings]
       else []) ++
      (if s.restrRefcount > 0 then
        [HookEvent.walt_enable_frequency_aggregation false]
       else []) := by
  rw [apply_NO_BOOST]

/-- Counterexample to C3 as stated.  At the reachable state with
`CONSERVATIVE` refcount 1 and `FULL_THROTTLE` refcount 1, the claim
demands an `update_cgroup_boost_settings()` call among the
FullThrottle-disable side effects of `apply(NO_BOOST)`, but the code
never calls it there.  At the reachable state with `RESTRAINED`
refcount 1 and `FULL_THROTTLE` refcount 1, the claim allows
`walt_enable_frequency_aggregation(false)` from the FullThrottle branch
only if the `RESTRAINED` refcount is 0, but the code fires it anyway
(twice in the whole call). -/
theorem C3_clear_all_counterexample :
    ((applySeq cfg0 initState
        [CONSERVATIVE_BOOST, FULL_THROTTLE_BOOST]).consRefcount = 1 ∧
     (applySeq cfg0 initState
        [CONSERVATIVE_BOOST, FULL_THROTTLE_BOOST]).ftRefcount = 1 ∧
     (sched_set_boost cfg0
        (applySeq cfg0 initState [CONSERVATIVE_BOOST, FULL_THROTTLE_BOOST])
        NO_BOOST).events =
       [HookEvent.core_ctl_set_boost false,
        HookEvent.walt_enable_frequency_aggregation false,
        HookEvent.restore_cgroup_boost_settings] ∧
     HookEvent.update_cgroup_boost_settings ∉
       (sched_set_boost cfg0
         (applySeq cfg0 initState [CONSERVATIVE_BOOST, FULL_THROTTLE_BOOST])
         NO_BOOST).events) ∧
    ((applySeq cfg0 initState
        [RESTRAINED_BOOST, FULL_THROTTLE_BOOST]).restrRefcount = 1 ∧
     (applySeq cfg0 initState
        [RESTRAINED_BOOST, FULL_THROTTLE_BOOST]).ftRefcount = 1 ∧
     (sched_set_boost cfg0
        (applySeq cfg0 initState [RESTRAINED_BOOST, FULL_THROTTLE_BOOST])
        NO_BOOST).events =
       [HookEvent.core_ctl_set_boost false,
        HookEvent.walt_enable_frequency_aggregation false,
        HookEvent.walt_enable_frequency_aggregation false]) := by
  decide

/-- C4: from the clean state, enable `RESTRAINED` fires
`walt_enable_frequency_aggregation(true)` (once); enable `FULL_THROTTLE`
does not re-fire it; disable `FULL_THROTTLE` does not fire
`walt_enable_frequency_aggregation(false)` because `RESTRAINED` still
holds it; the final disable `RESTRAINED` fires
`walt_enable_frequency_aggregation(false)` exactly once. -/
theorem C4_freq_aggregation_scenario (cfg : BoostConfig) :
    (sched_set_boost cfg initState RESTRAINED_BOOST).events =
      [HookEvent.walt_enable_frequency_aggregation true] ∧
    (sched_set_boost cfg (applySeq cfg initState [RESTRAINED_BOOST])
        FULL_THROTTLE_BOOST).events =
      [HookEvent.core_ctl_set_boost true,
       HookEvent.restore_cgroup_boost_settings] ∧
    (sched_set_boost cfg
        (applySeq cfg initState [RESTRAINED_BOOST, FULL_THROTTLE_BOOST])
        FULL_THROTTLE_BOOST_DISABLE).events =
      [HookEvent.core_ctl_set_boost false] ∧
    (sched_set_boost cfg
        (applySeq cfg initState
          [RESTRAINED_BOOST, FULL_THROTTLE_BOOST,
           FULL_THROTTLE_BOOST_DISABLE])
        RESTRAINED_BOOST_DISABLE).events =
      [HookEvent.walt_enable_frequency_aggregation false] := by
  refine ⟨?_, ?_, ?_, ?_⟩ <;>
    simp [applySeq_cons, applySeq_nil, apply_RESTR, apply_FT, apply_FT_DIS,
      apply_RESTR_DIS, initState]

/-- C6: starting from the all-zero initial state, after any request
sequence every refcount is ≥ 0, and a disable request finding its
refcount at zero leaves it at zero. -/
theorem C6_refcounts_nonneg (cfg : BoostConfig) (reqs : List Int) :
    (0 ≤ (applySeq cfg initState reqs).ftRefcount ∧
     0 ≤ (applySeq cfg initState reqs).consRefcount ∧
     0 ≤ (applySeq cfg initState reqs).restrRefcount) ∧
    ((applySeq cfg initState reqs).ftRefcount = 0 →
      (sched_set_boost cfg (applySeq cfg initState reqs)
        FULL_THROTTLE_BOOST_DISABLE).state.ftRefcount = 0) ∧
    ((applySeq cfg initState reqs).consRefcount = 0 →
      (sched_set_boost cfg (applySeq cfg initState reqs)
        CONSERVATIVE_BOOST_DISABLE).state.consRefcount = 0) ∧
    ((applySeq cfg initState reqs).restrRefcount = 0 →
      (sched_set_boost cfg (applySeq cfg initState reqs)
        RESTRAINED_BOOST_DISABLE).state.restrRefcount = 0) := by
  refine ⟨(applySeq_inv cfg reqs initState
    ⟨nonNeg_initState, consistent_initState cfg⟩).1, ?_, ?_, ?_⟩
  · intro h0
    rw [apply_FT_DIS, if_neg (by omega)]
    simpa using h0
  · intro h0
    rw [apply_CONS_DIS, if_neg (by omega)]
    simpa using h0
  · intro h0
    rw [apply_RESTR_DIS, if_neg (by omega)]
    simpa using h0

/-- Witness for C6 at the empty sequence. -/
theorem C6_refcounts_nonneg_witness :
    (0 ≤ (applySeq cfg0 initState []).ftRefcount ∧
     0 ≤ (applySeq cfg0 initState []).consRefcount ∧
     0 ≤ (applySeq cfg0 initState []).restrRefcount) ∧
    (sched_set_boost cfg0 (applySeq cfg0 initState [])
      FULL_THROTTLE_BOOST_DISABLE).state.ftRefcount = 0 :=
  ⟨(C6_refcounts_nonneg cfg0 []).1,
   (C6_refcounts_nonneg cfg0 []).2.1 (by decide)⟩

/-- C7: from any reachable state, enabling a non-`NO_BOOST` kind N ≥ 1
times and then issuing its matching disable (the arithmetic negation of
the enable code) N times returns the whole state — refcount table,
published kind, duplicated sysctl value, and policy — to exactly its
prior value. -/
theorem C7_round_trip (cfg : BoostConfig) (s : BoostState)
    (hs : Reachable cfg s) (k : Int)
    (hk : k = FULL_THROTTLE_BOOST ∨ k = CONSERVATIVE_BOOST ∨
      k = RESTRAINED_BOOST)
    (N : ℕ) (hN : 1 ≤ N) :
    applySeq cfg s (List.replicate N k ++ List.replicate N (-k)) = s := by
  obtain ⟨hnn, hcons⟩ := reachable_inv cfg s hs
  obtain ⟨hf, hc, hr⟩ := hnn
  obtain ⟨M, rfl⟩ : ∃ M, N = M + 1 := ⟨N - 1, by omega⟩
  rw [applySeq_append]
  rcases hk with rfl | rfl | rfl
  · rw [replicate_FT,
      show -FULL_THROTTLE_BOOST = FULL_THROTTLE_BOOST_DISABLE by norm_num,
      replicate_FT_DIS cfg M s.ftRefcount s.consRefcount s.restrRefcount hf]
    exact hcons.symm
  · rw [replicate_CONS,
      show -CONSERVATIVE_BOOST = CONSERVATIVE_BOOST_DISABLE by norm_num,
      replicate_CONS_DIS cfg M s.ftRefcount s.consRefcount s.restrRefcount hc]
    exact hcons.symm
  · rw [replicate_RESTR,
      show -RESTRAINED_BOOST = RESTRAINED_BOOST_DISABLE by norm_num,
      replicate_RESTR_DIS cfg M s.ftRefcount s.consRefcount s.restrRefcount hr]
    exact hcons.symm

/-- Witness for C7: one enable/disable pair of `FULL_THROTTLE_BOOST`
from the initial state. -/
theorem C7_round_trip_witness :
    applySeq cfg0 initState
      (List.replicate 1 FULL_THROTTLE_BOOST ++
       List.replicate 1 (-FULL_THROTTLE_BOOST)) = initState :=
  C7_round_trip cfg0 initState ⟨[], rfl⟩ FULL_THROTTLE_BOOST (Or.inl rfl) 1
    (by norm_num)

/-- C9 (amended): after a legal request code is written through the
control-surface endpoint, a subsequent read returns the *aggregated*
kind code, because `_sched_set_boost` overwrites the stored raw value;
the Published State's `sysctl_sched_boost` duplicates the aggregated
`sched_boost_type`, not the raw request. -/
theorem C9_read_returns_aggregate (cfg : BoostConfig) (s : BoostState)
    (v : Int) (h : verify_boost_params v = true) :
    sched_boost_handler_read (sched_boost_handler_write cfg s v).state =
      (sched_boost_handler_write cfg s v).state.sched_boost_type ∧
    (sched_boost_handler_write cfg s v).state.sched_boost_type =
      aggregateKind (sched_boost_handler_write cfg s v).state.ftRefcount
        (sched_boost_handler_write cfg s v).state.consRefcount
        (sched_boost_handler_write cfg s v).state.restrRefcount := by
  have heq : (sched_boost_handler_write cfg s v).state =
      (sched_set_boost cfg (proc_dointvec_store s v) v).state := by
    simp [sched_boost_handler_write, sched_set_boost, h]
  have hcons := sched_set_boost_consistent cfg (proc_dointvec_store s v) v h
  rw [heq]
  exact ⟨(consistent_sysctl cfg _ hcons).trans
      (consistent_kind cfg _ hcons).symm,
    consistent_kind cfg _ hcons⟩

/-- Witness for C9's amended statement at a concrete legal write. -/
theorem C9_read_returns_aggregate_witness :
    sched_boost_handler_read
        (sched_boost_handler_write cfg0 initState RESTRAINED_BOOST).state =
      (sched_boost_handler_write cfg0 initState
        RESTRAINED_BOOST).state.sched_boost_type ∧
    (sched_boost_handler_write cfg0 initState
        RESTRAINED_BOOST).state.sched_boost_type =
      aggregateKind
        (sched_boost_handler_write cfg0 initState
          RESTRAINED_BOOST).state.ftRefcount
        (sched_boost_handler_write cfg0 initState
          RESTRAINED_BOOST).state.consRefcount
        (sched_boost_handler_write cfg0 initState
          RESTRAINED_BOOST).state.restrRefcount :=
  C9_read_returns_aggregate cfg0 initState RESTRAINED_BOOST (by decide)

/-- Counterexample to C9 as stated.  `CONSERVATIVE_BOOST_DISABLE` (-2)
is a legal request code; written through the endpoint from the initial
state, a subsequent read returns 0 (the aggregate `NO_BOOST`), not the
raw -2 that was last written, and the Published State's duplicated
value is 0, not the raw requested value. -/
theorem C9_raw_readback_counterexample :
    verify_boost_params CONSERVATIVE_BOOST_DISABLE = true ∧
    sched_boost_handler_read
      (sched_boost_handler_write cfg0 initState
        CONSERVATIVE_BOOST_DISABLE).state = 0 ∧
    (0 : Int) ≠ CONSERVATIVE_BOOST_DISABLE ∧
    (sched_boost_handler_write cfg0 initState
      CONSERVATIVE_BOOST_DISABLE).state.sysctl_sched_boost ≠
      CONSERVATIVE_BOOST_DISABLE := by
  decide
